import Mathlib

/-!
Shallow embedding of the `bioml-tools/bio-datasets` repository's CI/packaging
surface: the GitHub Actions workflow `.github/workflows/publish.yml` and the
poetry packaging metadata (`pyproject.toml`).  The workflow is transcribed as
data (triggers, jobs, steps, conditions, shell commands), and small executable
semantics are given for the parts the claims need: GitHub-expression
conditions, artifact upload/download with glob patterns, the file-state effect
of the build steps, and the `needs` job-ordering discipline.
-/

namespace BioDatasets

/-- A GitHub Actions expression: either a string literal (`'true'`) or a
context lookup such as `steps.cache-ccd.outputs.cache-hit` or
`github.event_name`. -/
inductive GExpr where
  | lit : String → GExpr
  | ctx : String → GExpr
deriving DecidableEq, Repr

/-- A GitHub Actions `if:` condition, as used in `publish.yml`: equality,
inequality and conjunction of expressions. -/
inductive GCond where
  | eq : GExpr → GExpr → GCond
  | ne : GExpr → GExpr → GCond
  | and : GCond → GCond → GCond
deriving DecidableEq, Repr

/-- Evaluate an expression against an environment mapping context paths to
string values. -/
def evalGExpr (env : String → String) : GExpr → String
  | GExpr.lit s => s
  | GExpr.ctx p => env p

/-- Evaluate a condition against an environment. -/
def evalGCond (env : String → String) : GCond → Bool
  | GCond.eq a b => evalGExpr env a == evalGExpr env b
  | GCond.ne a b => evalGExpr env a != evalGExpr env b
  | GCond.and a b => evalGCond env a && evalGCond env b

/-- A shell command appearing in a `run:` block.  `wget destDir url` is
`wget -P destDir url`; `rm path` is `rm path`; every other command line is
kept verbatim as `sh raw`. -/
inductive Cmd where
  | wget : String → String → Cmd
  | rm : String → Cmd
  | sh : String → Cmd
deriving DecidableEq, Repr

/-- The action of a workflow step: either `uses:` a named action with its
`with:` arguments, or `run:` a list of shell commands. -/
inductive StepAction where
  | uses : String → List (String × String) → StepAction
  | run : List Cmd → StepAction
deriving DecidableEq, Repr

/-- A workflow step. -/
structure Step where
  name : Option String := none
  id : Option String := none
  cond : Option GCond := none
  action : StepAction
deriving DecidableEq, Repr

/-- A workflow job: its YAML key, display name, `needs` list, job-level
`if:` condition, and steps. -/
structure Job where
  key : String
  name : Option String := none
  needs : List String := []
  cond : Option GCond := none
  steps : List Step
deriving DecidableEq, Repr

/-- A workflow trigger from the `on:` block. -/
inductive Trigger where
  | pullRequest : List String → Trigger
  | release : List String → Trigger
  | workflowDispatch : Trigger
deriving DecidableEq, Repr

/-- A workflow file. -/
structure Workflow where
  name : String
  triggers : List Trigger
  jobs : List Job
deriving DecidableEq, Repr

/-! ### Transcription of `.github/workflows/publish.yml` -/

/-- The library directory that CCD files are downloaded into and bundled
from, as written in the `build-internal` job. -/
def libDir : String := "./src/bio_datasets/structure/library/"

/-- URL of the gzipped Chemical Component Dictionary. -/
def ccdUrl : String :=
  "https://files.wwpdb.org/pub/pdb/data/monomers/components.cif.gz"

/-- URL of the residue frequency counts file. -/
def freqUrl : String := "http://ligand-expo.rcsb.org/dictionaries/cc-counts.tdd"

/-- `build-internal` step: `Get current CCD for hashing`. -/
def getCcdStep : Step :=
  { name := some "Get current CCD for hashing"
    action := StepAction.run [Cmd.wget libDir ccdUrl] }

/-- `build-internal` step: `Get current CCD frequency file for hashing`. -/
def getFreqStep : Step :=
  { name := some "Get current CCD frequency file for hashing"
    action := StepAction.run [Cmd.wget libDir freqUrl] }

/-- `build-internal` step: `Cache CCD` (`actions/cache@v4`, id `cache-ccd`). -/
def cacheCcdStep : Step :=
  { name := some "Cache CCD"
    id := some "cache-ccd"
    action := StepAction.uses "actions/cache@v4"
      [("path", "./src/bio_datasets/structure/library/"),
       ("key",
        "cache-$\x7b\x7b hashFiles('setup_ccd.py') \x7d\x7d-$\x7b\x7b hashFiles('./src/bio_datasets/structure/library/components.cif.gz') \x7d\x7d-$\x7b\x7b hashFiles('./src/bio_datasets/structure/library/cc-counts.tdd') \x7d\x7d")] }

/-- `build-internal` step: `Build internal CCD`, guarded by
`if: steps.cache-ccd.outputs.cache-hit != 'true'`. -/
def buildCcdStep : Step :=
  { name := some "Build internal CCD"
    cond := some (GCond.ne (GExpr.ctx "steps.cache-ccd.outputs.cache-hit")
      (GExpr.lit "true"))
    action := StepAction.run [Cmd.sh "python setup_ccd.py"] }

/-- `build-internal` step: `Remove unprocessed CCD`. -/
def removeCcdStep : Step :=
  { name := some "Remove unprocessed CCD"
    action :=
      StepAction.run [Cmd.rm "./src/bio_datasets/structure/library/components.cif.gz"] }

/-- `build-internal` step: `Build distribution` (`python -m build --wheel`). -/
def buildDistStep : Step :=
  { name := some "Build distribution"
    action := StepAction.run [Cmd.sh "python -m build --wheel"] }

/-- `build-internal` step: `Upload wheel` (artifact `internal-build`). -/
def uploadWheelStep : Step :=
  { name := some "Upload wheel"
    action := StepAction.uses "actions/upload-artifact@v4"
      [("name", "internal-build"), ("path", "./dist/*.whl")] }

/-- `build-internal` step: `Upload CCD` (artifact `ccd`). -/
def uploadCcdStep : Step :=
  { name := some "Upload CCD"
    action := StepAction.uses "actions/upload-artifact@v4"
      [("name", "ccd"),
       ("path", "./src/bio_datasets/structure/library/components.bcif")] }

/-- `build-internal` step: `Upload CCD frequency file` (artifact `ccd_freq`). -/
def uploadFreqStep : Step :=
  { name := some "Upload CCD frequency file"
    action := StepAction.uses "actions/upload-artifact@v4"
      [("name", "ccd_freq"),
       ("path", "./src/bio_datasets/structure/library/cc-counts.tdd")] }

/-- `build-internal` step: `Upload CCD residue dictionary`
(artifact `ccd_res_dict`). -/
def uploadResDictStep : Step :=
  { name := some "Upload CCD residue dictionary"
    action := StepAction.uses "actions/upload-artifact@v4"
      [("name", "ccd_res_dict"),
       ("path", "./src/bio_datasets/structure/library/ccd_residue_dictionary.json")] }

/-- `build-internal` step: `Test` (`pytest`). -/
def testStep : Step :=
  { name := some "Test"
    action := StepAction.run [Cmd.sh "pytest"] }

/-- The `build-internal` job (`Build and test`). -/
def buildInternalJob : Job :=
  { key := "build-internal"
    name := some "Build and test"
    steps :=
      [ { action := StepAction.uses "actions/checkout@v4" [] },
        { action := StepAction.uses "actions/setup-python@v5"
            [("python-version", "3.11"), ("cache", "pip"),
             ("cache-dependency-path", "**/pyproject.toml")] },
        { name := some "Install dependencies"
          action := StepAction.run
            [Cmd.sh "python -m pip install --upgrade pip",
             Cmd.sh "pip install -e .",
             Cmd.sh "python build_cython.py"] },
        getCcdStep,
        getFreqStep,
        cacheCcdStep,
        buildCcdStep,
        removeCcdStep,
        { name := some "Install build backend"
          action := StepAction.run [Cmd.sh "pip install build"] },
        buildDistStep,
        uploadWheelStep,
        uploadCcdStep,
        uploadFreqStep,
        uploadResDictStep,
        testStep ] }

/-- The `pre-commit` job. -/
def preCommitJob : Job :=
  { key := "pre-commit"
    steps :=
      [ { action := StepAction.uses "actions/checkout@v3" [] },
        { action := StepAction.uses "actions/setup-python@v3" [] },
        { action := StepAction.uses "pre-commit/action@v3.0.1" [] } ] }

/-- `sdist` step: `Build source distribution` (`pipx run build --sdist`). -/
def buildSdistStep : Step :=
  { name := some "Build source distribution"
    action := StepAction.run [Cmd.sh "pipx run build --sdist"] }

/-- `sdist` step: upload of the source distribution (artifact `release-sdist`). -/
def uploadSdistStep : Step :=
  { action := StepAction.uses "actions/upload-artifact@v4"
      [("name", "release-sdist"), ("path", "dist//*.tar.gz")] }

/-- The `sdist` job (`Build source distribution for release`). -/
def sdistJob : Job :=
  { key := "sdist"
    name := some "Build source distribution for release"
    needs := ["pre-commit", "build-internal"]
    steps :=
      [ { action := StepAction.uses "actions/checkout@v4" [] },
        { name := some "Add internal CCD to bio_datasets"
          action := StepAction.uses "actions/download-artifact@v4"
            [("name", "ccd"), ("path", "src/bio_datasets/structure/library/")] },
        { name := some "Add internal CCD frequency file to bio_datasets"
          action := StepAction.uses "actions/download-artifact@v4"
            [("name", "ccd_freq"),
             ("path", "src/bio_datasets/structure/library/")] },
        { name := some "Add internal CCD residue dictionary to bio_datasets"
          action := StepAction.uses "actions/download-artifact@v4"
            [("name", "ccd_res_dict"),
             ("path", "src/bio_datasets/structure/library/")] },
        buildSdistStep,
        uploadSdistStep,
        { name := some "Clean dist directory"
          action := StepAction.run [Cmd.sh "rm -rf dist"] } ] }

/-- `upload-package` step: download of the distributions to publish
(`actions/download-artifact@v4` with `pattern: release-*`,
`merge-multiple: true`, `path: dist`). -/
def downloadReleaseStep : Step :=
  { action := StepAction.uses "actions/download-artifact@v4"
      [("pattern", "release-*"), ("merge-multiple", "true"), ("path", "dist")] }

/-- The `upload-package` job, guarded by
`if: github.event_name == 'release' && github.event.action == 'published'`. -/
def uploadPackageJob : Job :=
  { key := "upload-package"
    name := some "Upload package to GitHub Releases & PyPI]"
    needs := ["build-internal", "sdist"]
    cond := some (GCond.and
      (GCond.eq (GExpr.ctx "github.event_name") (GExpr.lit "release"))
      (GCond.eq (GExpr.ctx "github.event.action") (GExpr.lit "published")))
    steps :=
      [ downloadReleaseStep,
        { name := some "List distributions to be uploaded"
          action := StepAction.run [Cmd.sh "ls dist"] },
        { name := some "Upload to GitHub Releases"
          action := StepAction.uses "softprops/action-gh-release@v2.0.5"
            [("files", "dist//*")] },
        { name := some "Upload to PyPI"
          action := StepAction.uses "pypa/gh-action-pypi-publish@release/v1" [] } ] }

/-- The whole `publish.yml` workflow (`Test and Publish`). -/
def publishWorkflow : Workflow :=
  { name := "Test and Publish"
    triggers :=
      [ Trigger.pullRequest ["main"],
        Trigger.release ["published"],
        Trigger.workflowDispatch ]
    jobs := [preCommitJob, buildInternalJob, sdistJob, uploadPackageJob] }

/-! ### Transcription of the poetry packaging metadata (`pyproject.toml`) -/

/-- The `[tool.poetry]` metadata of `pyproject.toml`, with the
`[tool.poetry.scripts]` console-script table. -/
structure PoetryConfig where
  pkgName : String
  version : String
  packages : List (String × String)
  dependencies : List String
  scripts : List (String × String)
deriving DecidableEq, Repr

/-- The repository's `pyproject.toml` poetry section. -/
def pyproject : PoetryConfig :=
  { pkgName := "datasets-bio"
    version := "0.1.2"
    packages := [("bio_datasets", "src"), ("bio_datasets_cli", "src")]
    dependencies :=
      ["python", "foldcomp", "biotite", "huggingface_hub", "datasets-fast",
       "packaging", "pytest", "Cython"]
    scripts :=
      [("cif2bcif", "bio_datasets_cli.cif2bcif:main"),
       ("cifs2bcifs", "bio_datasets_cli.cif2bcif:dir_main")] }

/-! ### Semantics: conditions, artifacts, file state, job ordering -/

/-- A step or job with no `if:` always runs; otherwise its condition must
evaluate to true. -/
def condHolds (env : String → String) : Option GCond → Bool
  | none => true
  | some c => evalGCond env c

/-- Whether a step's `if:` condition lets it run under `env`. -/
def stepRuns (env : String → String) (s : Step) : Bool :=
  condHolds env s.cond

/-- Look up a key in a `with:` argument list. -/
def argLookup (args : List (String × String)) (k : String) : Option String :=
  (args.find? (fun a => a.1 == k)).map (fun a => a.2)

/-- The `(name, path)` pairs of every `actions/upload-artifact` step in a
list of steps, in order. -/
def uploadArtifactsOf (steps : List Step) : List (String × String) :=
  steps.filterMap fun s =>
    match s.action with
    | StepAction.uses a args =>
      if a == "actions/upload-artifact@v4" then
        match argLookup args "name", argLookup args "path" with
        | some n, some p => some (n, p)
        | _, _ => none
      else none
    | StepAction.run _ => none

/-- The `(name, path)` pairs of every `actions/upload-artifact` step of a
job, in step order. -/
def uploadArtifacts (j : Job) : List (String × String) :=
  uploadArtifactsOf j.steps

/-- The `(name, path)` pairs of every `actions/download-artifact` step in a
list of steps that names a single artifact, in order. -/
def downloadArtifactsOf (steps : List Step) : List (String × String) :=
  steps.filterMap fun s =>
    match s.action with
    | StepAction.uses a args =>
      if a == "actions/download-artifact@v4" then
        match argLookup args "name", argLookup args "path" with
        | some n, some p => some (n, p)
        | _, _ => none
      else none
    | StepAction.run _ => none

/-- The `(name, path)` pairs of every `actions/download-artifact` step of a
job that names a single artifact, in step order. -/
def downloadArtifacts (j : Job) : List (String × String) :=
  downloadArtifactsOf j.steps

/-- The steps of a job strictly before the first step with the given name. -/
def stepsBeforeNamed (j : Job) (n : String) : List Step :=
  j.steps.takeWhile fun s => s.name != some n

/-- Whether some step of the job uses the given action. -/
def jobHasUses (j : Job) (a : String) : Bool :=
  j.steps.any fun s =>
    match s.action with
    | StepAction.uses u _ => u == a
    | StepAction.run _ => false

/-- Whether some `run:` step of the job contains the given command. -/
def jobHasRunCmd (j : Job) (c : Cmd) : Bool :=
  j.steps.any fun s =>
    match s.action with
    | StepAction.uses _ _ => false
    | StepAction.run cmds => cmds.any fun c0 => c0 == c

/-- Every artifact `(name, path)` uploaded by any job of a workflow. -/
def workflowArtifacts (w : Workflow) : List (String × String) :=
  w.jobs.flatMap uploadArtifacts

/-- Fuelled glob matcher: `*` matches any (possibly empty) sequence of
characters, every other character matches itself. -/
def globMatchAux : Nat → List Char → List Char → Bool
  | 0, _, _ => false
  | _ + 1, [], cs => cs.isEmpty
  | fuel + 1, '*' :: ps, [] => globMatchAux fuel ps []
  | fuel + 1, '*' :: ps, c :: cs =>
    globMatchAux fuel ps (c :: cs) || globMatchAux fuel ('*' :: ps) cs
  | _ + 1, _ :: _, [] => false
  | fuel + 1, p :: ps, c :: cs => p == c && globMatchAux fuel ps cs

/-- Whether a glob pattern (as used by `download-artifact`'s `pattern:`)
matches a string. -/
def globMatch (pat s : String) : Bool :=
  globMatchAux (pat.length + s.length + 1) pat.data s.data

/-- The glob pattern the `upload-package` job downloads artifacts by. -/
def releasePattern : String :=
  (argLookup (match downloadReleaseStep.action with
    | StepAction.uses _ args => args
    | StepAction.run _ => []) "pattern").getD ""

/-- The artifacts of the workflow whose names match the `upload-package`
download pattern: these are the files that land in `dist` and are then
uploaded to GitHub Releases (`dist//*`) and to PyPI. -/
def releaseUploadedArtifacts : List (String × String) :=
  (workflowArtifacts publishWorkflow).filter fun a => globMatch releasePattern a.1

/-- Whether an artifact path denotes wheel files. -/
def isWheelPath (p : String) : Bool := List.isSuffixOf ".whl".data p.data

/-- Whether an artifact path denotes source-distribution tarballs. -/
def isSdistPath (p : String) : Bool := List.isSuffixOf ".tar.gz".data p.data

/-- Split a character list on a separator character. -/
def splitOnChar (sep : Char) : List Char → List (List Char)
  | [] => [[]]
  | c :: cs =>
    if c = sep then [] :: splitOnChar sep cs
    else
      match splitOnChar sep cs with
      | [] => [[c]]
      | h :: t => (c :: h) :: t

/-- The last `/`-separated component of a URL: the filename `wget` creates. -/
def urlFilename (u : String) : String :=
  String.mk ((splitOnChar '/' u.data).getLastD u.data)

/-- The characters of a URL after the `//` that ends the scheme. -/
def afterScheme : List Char → List Char
  | [] => []
  | '/' :: '/' :: rest => rest
  | _ :: rest => afterScheme rest

/-- The host of a URL: the part between `//` and the following `/`. -/
def urlHost (u : String) : String :=
  String.mk ((afterScheme u.data).takeWhile fun c => c != '/')

/-- State of the build-internal job's file system, restricted to what the
claims are about: the files present in the CCD library path, and the
contents captured by each built wheel. -/
structure BuildState where
  files : List String
  wheels : List (List String)
deriving DecidableEq, Repr

/-- The empty starting state of a job's workspace. -/
def initialState : BuildState := { files := [], wheels := [] }

/-- Effect of one shell command on the file state.  `ccdEff` is the (not
included in the repository) effect of `setup_ccd.py` on the library files,
kept abstract; `python -m build --wheel` captures the current files into a
wheel; all other commands do not touch the library files. -/
def applyCmd (ccdEff : List String → List String) (st : BuildState) :
    Cmd → BuildState
  | Cmd.wget dir url => { st with files := st.files ++ [dir ++ urlFilename url] }
  | Cmd.rm p => { st with files := st.files.filter (fun f => f != p) }
  | Cmd.sh raw =>
    if raw == "python setup_ccd.py" then { st with files := ccdEff st.files }
    else if raw == "python -m build --wheel" then
      { st with wheels := st.wheels ++ [st.files] }
    else st

/-- Effect of one step on the file state.  A step whose condition fails does
nothing; `actions/cache` may restore arbitrary files (`cacheEff`, abstract);
other `uses:` actions do not touch the library files. -/
def applyStep (env : String → String) (ccdEff cacheEff : List String → List String)
    (st : BuildState) (s : Step) : BuildState :=
  if stepRuns env s then
    match s.action with
    | StepAction.run cmds => cmds.foldl (applyCmd ccdEff) st
    | StepAction.uses a _ =>
      if a == "actions/cache@v4" then { st with files := cacheEff st.files }
      else st
  else st

/-- Run a list of steps from a state. -/
def execSteps (env : String → String) (ccdEff cacheEff : List String → List String)
    (st : BuildState) (steps : List Step) : BuildState :=
  steps.foldl (applyStep env ccdEff cacheEff) st

/-- The trace of one workflow run: which jobs ran, which completed
successfully, and when each started and finished. -/
structure RunTrace where
  ran : String → Bool
  ok : String → Bool
  start : String → Nat
  finish : String → Nat

/-- GitHub Actions `needs` discipline: a job runs only if its `if:` condition
holds and every job it `needs` ran, completed successfully, and finished
before the job started. -/
def validRun (w : Workflow) (env : String → String) (tr : RunTrace) : Prop :=
  ∀ j ∈ w.jobs, tr.ran j.key = true →
    condHolds env j.cond = true ∧
    ∀ d ∈ j.needs,
      tr.ran d = true ∧ tr.ok d = true ∧ tr.finish d ≤ tr.start j.key

/-- The CCD cache key of the `Cache CCD` step, as a function of the GitHub
`hashFiles` function and the contents of the three hashed files:
`cache-${{ hashFiles('setup_ccd.py') }}-${{ hashFiles('…components.cif.gz') }}-${{ hashFiles('…cc-counts.tdd') }}`. -/
def ccdCacheKey (hashFiles : String → String)
    (setupCcd componentsCifGz ccCountsTdd : String) : String :=
  "cache-" ++ hashFiles setupCcd ++ "-" ++ hashFiles componentsCifGz ++ "-" ++
    hashFiles ccCountsTdd

/-- The full path of the unprocessed gzipped CCD inside the checkout, the
file removed by the `Remove unprocessed CCD` step. -/
def gzPath : String := "./src/bio_datasets/structure/library/components.cif.gz"

/-- The context path the `Build internal CCD` condition reads. -/
def cacheHitKey : String := "steps.cache-ccd.outputs.cache-hit"

/-! ### Helper lemmas -/

/-- `String.data` turns appending of strings into appending of char lists. -/
lemma string_data_append (s t : String) : (s ++ t).data = s.data ++ t.data := by
  cases s
  cases t
  rfl

/-- Splitting an equation between two `pre ++ A ++ d ++ B ++ d ++ C` shapes
when the `A`s and `B`s have matching lengths. -/
lemma append_triple_inj {pre d A A' B B' C C' : List Char}
    (hA : A.length = A'.length) (hB : B.length = B'.length)
    (h : pre ++ A ++ d ++ B ++ d ++ C = pre ++ A' ++ d ++ B' ++ d ++ C') :
    A = A' ∧ B = B' ∧ C = C' := by
  have h0 : pre ++ (A ++ (d ++ (B ++ (d ++ C)))) =
      pre ++ (A' ++ (d ++ (B' ++ (d ++ C')))) := by
    simpa [List.append_assoc] using h
  have h1 := List.append_cancel_left h0
  obtain ⟨hAe, h2⟩ := List.append_inj h1 hA
  have h3 : B ++ (d ++ C) = B' ++ (d ++ C') := List.append_cancel_left h2
  obtain ⟨hBe, h4⟩ := List.append_inj h3 hB
  exact ⟨hAe, hBe, List.append_cancel_left h4⟩

/-- `validRun` only quantifies over the finitely many jobs and their `needs`
lists, so it is decidable. -/
instance validRunDecidable (w : Workflow) (env : String → String) (tr : RunTrace) :
    Decidable (validRun w env tr) := by
  unfold validRun
  infer_instance

/-! ### Claims -/

/-- Claim C1, counterexample: it is false that the distribution files the
`upload-package` job downloads (artifacts matching its `release-*` pattern)
and then uploads to GitHub Releases and PyPI contain both a wheel and a
source distribution — they contain no wheel, since the wheel artifact is
named `internal-build`. -/
theorem c1_wheel_and_sdist_published_false :
    ¬ ((∃ a ∈ releaseUploadedArtifacts, isWheelPath a.2 = true) ∧
      ∃ a ∈ releaseUploadedArtifacts, isSdistPath a.2 = true) := by
  decide

/-- Claim C1, amended: the only artifact the `upload-package` job downloads
and uploads to GitHub Releases and PyPI is the source distribution
`release-sdist`; no wheel is published, because the wheel artifact
`internal-build` does not match the `release-*` download pattern. -/
theorem c1_only_sdist_published :
    releaseUploadedArtifacts = [("release-sdist", "dist//*.tar.gz")] ∧
    (∃ a ∈ releaseUploadedArtifacts, isSdistPath a.2 = true) ∧
    (∀ a ∈ releaseUploadedArtifacts, isWheelPath a.2 = false) ∧
    ("internal-build", "./dist/*.whl") ∈ workflowArtifacts publishWorkflow ∧
    globMatch releasePattern "internal-build" = false ∧
    downloadReleaseStep ∈ uploadPackageJob.steps := by
  decide

/-- Claim C2: the CCD cache key is a deterministic function of exactly the
contents of `setup_ccd.py`, `components.cif.gz` and `cc-counts.tdd` —
byte-identical triples give the same key, and (for a `hashFiles` whose
64-character outputs differ on the changed file) changing any one of the
three files changes the key. -/
theorem c2_cache_key_deterministic_and_sensitive
    (hashFiles : String → String) (s s' c c' t t' : String)
    (hs : (hashFiles s).length = 64) (hs' : (hashFiles s').length = 64)
    (hc : (hashFiles c).length = 64) (hc' : (hashFiles c').length = 64) :
    (s = s' → c = c' → t = t' →
      ccdCacheKey hashFiles s c t = ccdCacheKey hashFiles s' c' t') ∧
    (hashFiles s ≠ hashFiles s' →
      ccdCacheKey hashFiles s c t ≠ ccdCacheKey hashFiles s' c t) ∧
    (hashFiles c ≠ hashFiles c' →
      ccdCacheKey hashFiles s c t ≠ ccdCacheKey hashFiles s c' t) ∧
    (hashFiles t ≠ hashFiles t' →
      ccdCacheKey hashFiles s c t ≠ ccdCacheKey hashFiles s c t') := by
  refine ⟨fun h1 h2 h3 => by rw [h1, h2, h3], ?_, ?_, ?_⟩
  · intro hne heq
    apply hne
    have hd := congrArg String.data heq
    simp only [ccdCacheKey, string_data_append] at hd
    have hA : (hashFiles s).data.length = (hashFiles s').data.length :=
      hs.trans hs'.symm
    obtain ⟨hAe, -, -⟩ := append_triple_inj hA rfl hd
    exact String.ext hAe
  · intro hne heq
    apply hne
    have hd := congrArg String.data heq
    simp only [ccdCacheKey, string_data_append] at hd
    have hB : (hashFiles c).data.length = (hashFiles c').data.length :=
      hc.trans hc'.symm
    obtain ⟨-, hBe, -⟩ := append_triple_inj rfl hB hd
    exact String.ext hBe
  · intro hne heq
    apply hne
    have hd := congrArg String.data heq
    simp only [ccdCacheKey, string_data_append] at hd
    obtain ⟨-, -, hCe⟩ := append_triple_inj rfl rfl hd
    exact String.ext hCe

/-- Witness for claim C2, at a concrete 64-character-output hash function:
identical inputs give identical keys, and a changed first file with a
changed hash gives a different key. -/
theorem c2_cache_key_witness :
    ccdCacheKey
        (fun x => if x = "s1" then String.mk (List.replicate 64 'x')
          else String.mk (List.replicate 64 'y')) "a" "c" "t" =
      ccdCacheKey
        (fun x => if x = "s1" then String.mk (List.replicate 64 'x')
          else String.mk (List.replicate 64 'y')) "a" "c" "t" ∧
    ccdCacheKey
        (fun x => if x = "s1" then String.mk (List.replicate 64 'x')
          else String.mk (List.replicate 64 'y')) "s1" "c" "t" ≠
      ccdCacheKey
        (fun x => if x = "s1" then String.mk (List.replicate 64 'x')
          else String.mk (List.replicate 64 'y')) "s2" "c" "t" := by
  constructor
  · exact (c2_cache_key_deterministic_and_sensitive
      (fun x => if x = "s1" then String.mk (List.replicate 64 'x')
        else String.mk (List.replicate 64 'y')) "a" "a" "c" "c" "t" "t"
      (by decide) (by decide) (by decide) (by decide)).1 rfl rfl rfl
  · exact (c2_cache_key_deterministic_and_sensitive
      (fun x => if x = "s1" then String.mk (List.replicate 64 'x')
        else String.mk (List.replicate 64 'y')) "s1" "s2" "c" "c" "t" "t"
      (by decide) (by decide) (by decide) (by decide)).2.1 (by decide)

set_option maxRecDepth 8000 in
/-- Claim C3: in the `build-internal` job, the `Build internal CCD` step
(which runs `setup_ccd.py`) is guarded so that it runs exactly when the
`cache-ccd` cache lookup missed: its condition holds iff the `cache-hit`
output is not `'true'`. -/
theorem c3_rebuild_iff_cache_miss (env : String → String) (hit : Bool)
    (henv : env cacheHitKey = "true" ↔ hit = true) :
    buildCcdStep ∈ buildInternalJob.steps ∧
    cacheCcdStep.id = some "cache-ccd" ∧
    cacheCcdStep ∈ buildInternalJob.steps ∧
    jobHasRunCmd (Job.mk "" none [] none [buildCcdStep]) (Cmd.sh "python setup_ccd.py")
      = true ∧
    (stepRuns env buildCcdStep = true ↔ hit = false) := by
  refine ⟨by decide, rfl, by decide, by decide, ?_⟩
  simp only [stepRuns, condHolds, buildCcdStep, evalGCond, evalGExpr]
  cases hit <;> simp_all [bne_iff_ne, cacheHitKey]

/-- Witness for claim C3: under an environment reporting a cache hit, the
rebuild step does not run. -/
theorem c3_rebuild_iff_cache_miss_witness :
    stepRuns (fun k => if k = cacheHitKey then "true" else "") buildCcdStep
      = false := by
  have h := c3_rebuild_iff_cache_miss
    (fun k => if k = cacheHitKey then "true" else "") true (by simp)
  simpa using h.2.2.2.2

set_option maxRecDepth 8000 in
/-- Claim C4: the `sdist` job downloads exactly the three build artifacts
`ccd` (`components.bcif`), `ccd_freq` (`cc-counts.tdd`) and `ccd_res_dict`
(`ccd_residue_dictionary.json`) into `src/bio_datasets/structure/library/`,
all before the `Build source distribution` step, and those artifact names
are bound to exactly those files by the `build-internal` uploads. -/
theorem c4_sdist_bundles_exactly_three_files :
    downloadArtifacts sdistJob =
      [("ccd", "src/bio_datasets/structure/library/"),
       ("ccd_freq", "src/bio_datasets/structure/library/"),
       ("ccd_res_dict", "src/bio_datasets/structure/library/")] ∧
    downloadArtifactsOf (stepsBeforeNamed sdistJob "Build source distribution") =
      downloadArtifacts sdistJob ∧
    buildSdistStep ∈ sdistJob.steps ∧
    buildSdistStep.action = StepAction.run [Cmd.sh "pipx run build --sdist"] ∧
    uploadArtifacts buildInternalJob =
      [("internal-build", "./dist/*.whl"),
       ("ccd", "./src/bio_datasets/structure/library/components.bcif"),
       ("ccd_freq", "./src/bio_datasets/structure/library/cc-counts.tdd"),
       ("ccd_res_dict",
        "./src/bio_datasets/structure/library/ccd_residue_dictionary.json")] := by
  decide

/-- Claim C5: the package declares exactly two console scripts, `cif2bcif`
resolving to `bio_datasets_cli.cif2bcif:main` and `cifs2bcifs` resolving to
`bio_datasets_cli.cif2bcif:dir_main`. -/
theorem c5_console_scripts_exactly_two :
    pyproject.scripts =
      [("cif2bcif", "bio_datasets_cli.cif2bcif:main"),
       ("cifs2bcifs", "bio_datasets_cli.cif2bcif:dir_main")] ∧
    argLookup pyproject.scripts "cif2bcif" = some "bio_datasets_cli.cif2bcif:main" ∧
    argLookup pyproject.scripts "cifs2bcifs" =
      some "bio_datasets_cli.cif2bcif:dir_main" ∧
    pyproject.scripts.length = 2 := by
  decide

/-- Claim C6: the `upload-package` job needs both `build-internal` (the job
that runs `pytest`) and `sdist`; in any run respecting the `needs`
discipline, if `upload-package` ran then both completed successfully before
it started, and the triggering event was a published release. -/
theorem c6_publish_after_build_test_sdist :
    uploadPackageJob.needs = ["build-internal", "sdist"] ∧
    jobHasRunCmd buildInternalJob (Cmd.sh "pytest") = true ∧
    (∀ (env : String → String) (tr : RunTrace),
      validRun publishWorkflow env tr → tr.ran "upload-package" = true →
        (tr.ok "build-internal" = true ∧
          tr.finish "build-internal" ≤ tr.start "upload-package") ∧
        (tr.ok "sdist" = true ∧ tr.finish "sdist" ≤ tr.start "upload-package") ∧
        env "github.event_name" = "release" ∧
        env "github.event.action" = "published") := by
  refine ⟨rfl, by decide, ?_⟩
  intro env tr hv hr
  obtain ⟨hcond, hneeds⟩ := hv uploadPackageJob (by simp [publishWorkflow]) hr
  obtain ⟨hbr, hbo, hbf⟩ := hneeds "build-internal" (by simp [uploadPackageJob])
  obtain ⟨hsr, hso, hsf⟩ := hneeds "sdist" (by simp [uploadPackageJob])
  simp only [uploadPackageJob, condHolds, evalGCond, evalGExpr,
    Bool.and_eq_true, beq_iff_eq] at hcond
  exact ⟨⟨hbo, hbf⟩, ⟨hso, hsf⟩, hcond.1, hcond.2⟩

set_option maxRecDepth 8000 in
/-- Witness for claim C6: a concrete valid run with a published-release
environment in which `upload-package` ran. -/
theorem c6_publish_after_build_test_sdist_witness :
    (fun _ : String => true) "build-internal" = true ∧
    (fun p => if p = "github.event_name" then "release"
      else if p = "github.event.action" then "published" else "")
      "github.event_name" = "release" := by
  have h := c6_publish_after_build_test_sdist.2.2
    (fun p => if p = "github.event_name" then "release"
      else if p = "github.event.action" then "published" else "")
    (RunTrace.mk (fun _ => true) (fun _ => true)
      (fun j => if j = "upload-package" then 4 else if j = "sdist" then 2 else 0)
      (fun j => if j = "upload-package" then 5 else if j = "sdist" then 3 else 1))
    (by decide) (by decide)
  exact ⟨h.1.1, h.2.2.1⟩

set_option maxRecDepth 8000 in
/-- Claim C7: the `build-internal` job fetches `components.cif.gz` from
`files.wwpdb.org` and `cc-counts.tdd` from `ligand-expo.rcsb.org` into
`./src/bio_datasets/structure/library/`, and both files are present in that
directory at the `Cache CCD` lookup, which itself precedes the
`Build internal CCD` processing step — in every run, whatever the
environment and the cache/processing effects. -/
theorem c7_downloads_before_cache_and_processing
    (env : String → String) (ccdEff cacheEff : List String → List String) :
    getCcdStep.action = StepAction.run [Cmd.wget libDir ccdUrl] ∧
    getFreqStep.action = StepAction.run [Cmd.wget libDir freqUrl] ∧
    urlHost ccdUrl = "files.wwpdb.org" ∧
    urlHost freqUrl = "ligand-expo.rcsb.org" ∧
    urlFilename ccdUrl = "components.cif.gz" ∧
    urlFilename freqUrl = "cc-counts.tdd" ∧
    gzPath ∈ (execSteps env ccdEff cacheEff initialState
        (stepsBeforeNamed buildInternalJob "Cache CCD")).files ∧
    "./src/bio_datasets/structure/library/cc-counts.tdd" ∈
      (execSteps env ccdEff cacheEff initialState
        (stepsBeforeNamed buildInternalJob "Cache CCD")).files ∧
    cacheCcdStep ∈ stepsBeforeNamed buildInternalJob "Build internal CCD" := by
  refine ⟨rfl, rfl, by decide, by decide, by decide, by decide, ?_, ?_, by decide⟩
  <;>
  · simp [execSteps, stepsBeforeNamed, buildInternalJob, getCcdStep, getFreqStep,
      cacheCcdStep, buildCcdStep, removeCcdStep, buildDistStep, uploadWheelStep,
      uploadCcdStep, uploadFreqStep, uploadResDictStep, testStep, applyStep,
      stepRuns, condHolds, applyCmd, initialState, gzPath, libDir, ccdUrl, freqUrl,
      urlFilename]
    decide

/-- Claim C8: in every run of the `build-internal` job — whatever the
environment, the effect of `setup_ccd.py` on the library files, and the
files restored by the cache — the raw `components.cif.gz` is removed before
`python -m build --wheel` captures the library files, so no built wheel
contains it; and no upload step of the job uploads it as an artifact path. -/
theorem c8_unprocessed_ccd_never_shipped
    (env : String → String) (ccdEff cacheEff : List String → List String) :
    (∀ w ∈ (execSteps env ccdEff cacheEff initialState buildInternalJob.steps).wheels,
      gzPath ∉ w) ∧
    ∀ a ∈ uploadArtifacts buildInternalJob, a.2 ≠ gzPath := by
  constructor
  · cases hc : evalGCond env (GCond.ne (GExpr.ctx "steps.cache-ccd.outputs.cache-hit")
        (GExpr.lit "true")) <;>
    · intro w hw
      simp [execSteps, buildInternalJob, getCcdStep, getFreqStep, cacheCcdStep,
        buildCcdStep, removeCcdStep, buildDistStep, uploadWheelStep, uploadCcdStep,
        uploadFreqStep, uploadResDictStep, testStep, applyStep, hc,
        stepRuns, condHolds, applyCmd, initialState] at hw
      subst hw
      simp [gzPath, List.mem_filter]
  · decide

set_option maxRecDepth 8000 in
/-- Witness for claim C8: with identity cache and processing effects, the
single wheel built by the job contains only the processed frequency file,
not `components.cif.gz`, and the `ccd` artifact path is not the raw CCD. -/
theorem c8_unprocessed_ccd_never_shipped_witness :
    gzPath ∉ ["./src/bio_datasets/structure/library/cc-counts.tdd"] ∧
    ("ccd", "./src/bio_datasets/structure/library/components.bcif").2 ≠ gzPath := by
  constructor
  · exact (c8_unprocessed_ccd_never_shipped (fun _ => "") id id).1
      ["./src/bio_datasets/structure/library/cc-counts.tdd"] (by decide)
  · exact (c8_unprocessed_ccd_never_shipped (fun _ => "") id id).2
      ("ccd", "./src/bio_datasets/structure/library/components.bcif") (by decide)

set_option maxRecDepth 8000 in
/-- Claim C9: in the `build-internal` job, all four artifact uploads (wheel,
CCD, frequency file, residue dictionary) are unconditional steps placed
before the `pytest` step, so they are reached in every run that reaches the
tests, even when the tests then fail. -/
theorem c9_artifacts_uploaded_before_tests :
    uploadArtifactsOf (stepsBeforeNamed buildInternalJob "Test") =
      uploadArtifacts buildInternalJob ∧
    (uploadArtifacts buildInternalJob).length = 4 ∧
    uploadWheelStep ∈ stepsBeforeNamed buildInternalJob "Test" ∧
    uploadCcdStep ∈ stepsBeforeNamed buildInternalJob "Test" ∧
    uploadFreqStep ∈ stepsBeforeNamed buildInternalJob "Test" ∧
    uploadResDictStep ∈ stepsBeforeNamed buildInternalJob "Test" ∧
    uploadWheelStep.cond = none ∧ uploadCcdStep.cond = none ∧
    uploadFreqStep.cond = none ∧ uploadResDictStep.cond = none ∧
    testStep ∈ buildInternalJob.steps ∧
    testStep.action = StepAction.run [Cmd.sh "pytest"] := by
  decide

/-- Claim C10: the `sdist` job needs both `pre-commit` (the lint-hook job)
and `build-internal` (the job that runs `pytest`); in any run respecting
the `needs` discipline, if `sdist` ran then both completed successfully
before it started. -/
theorem c10_sdist_after_lint_and_tests :
    sdistJob.needs = ["pre-commit", "build-internal"] ∧
    jobHasUses preCommitJob "pre-commit/action@v3.0.1" = true ∧
    jobHasRunCmd buildInternalJob (Cmd.sh "pytest") = true ∧
    (∀ (env : String → String) (tr : RunTrace),
      validRun publishWorkflow env tr → tr.ran "sdist" = true →
        (tr.ok "pre-commit" = true ∧ tr.finish "pre-commit" ≤ tr.start "sdist") ∧
        (tr.ok "build-internal" = true ∧
          tr.finish "build-internal" ≤ tr.start "sdist")) := by
  refine ⟨rfl, by decide, by decide, ?_⟩
  intro env tr hv hr
  obtain ⟨hcond, hneeds⟩ := hv sdistJob (by simp [publishWorkflow]) hr
  obtain ⟨hpr, hpo, hpf⟩ := hneeds "pre-commit" (by simp [sdistJob])
  obtain ⟨hbr, hbo, hbf⟩ := hneeds "build-internal" (by simp [sdistJob])
  exact ⟨⟨hpo, hpf⟩, ⟨hbo, hbf⟩⟩

set_option maxRecDepth 8000 in
/-- Witness for claim C10: a concrete valid run in which `sdist` ran after
`pre-commit` and `build-internal` succeeded. -/
theorem c10_sdist_after_lint_and_tests_witness :
    (fun _ : String => true) "pre-commit" = true ∧
    (fun j => if j = "upload-package" then (5 : Nat) else if j = "sdist" then 3
      else 1) "build-internal" ≤
      (fun j => if j = "upload-package" then (4 : Nat) else if j = "sdist" then 2
        else 0) "sdist" := by
  have h := c10_sdist_after_lint_and_tests.2.2.2
    (fun p => if p = "github.event_name" then "release"
      else if p = "github.event.action" then "published" else "")
    (RunTrace.mk (fun _ => true) (fun _ => true)
      (fun j => if j = "upload-package" then 4 else if j = "sdist" then 2 else 0)
      (fun j => if j = "upload-package" then 5 else if j = "sdist" then 3 else 1))
    (by decide) (by decide)
  exact ⟨h.1.1, h.2.2⟩

end BioDatasets
